import Mathlib

/-!
Shallow embedding of the Interplay MVE demuxer
(src/ffmpeg0.7-CKW/ffmpeg-git/libavformat/ipmovie.c) and proofs about the
claims of the specification.  The byte stream is a `List Nat` together with a
position and an end-of-file flag, mirroring the `AVIOContext` operations the
demuxer uses (`avio_read`, `avio_seek`, `avio_skip`, `avio_tell`, `avio_r8`,
`url_feof`).  All functions are executable.
-/

namespace IpMovie

/-- Chunk type code 0x0000 (init audio) from ipmovie.c. -/
def CHUNK_INIT_AUDIO : Int := 0x0000

/-- Chunk type code 0x0001 (audio only). -/
def CHUNK_AUDIO_ONLY : Int := 0x0001

/-- Chunk type code 0x0002 (init video). -/
def CHUNK_INIT_VIDEO : Int := 0x0002

/-- Chunk type code 0x0003 (video, possibly with audio). -/
def CHUNK_VIDEO : Int := 0x0003

/-- Chunk type code 0x0004 (shutdown). -/
def CHUNK_SHUTDOWN : Int := 0x0004

/-- Chunk type code 0x0005 (end). -/
def CHUNK_END : Int := 0x0005

/-- Internal chunk return code 0xFFFC (done, keep going). -/
def CHUNK_DONE : Int := 0xFFFC

/-- Internal chunk return code 0xFFFD (out of memory). -/
def CHUNK_NOMEM : Int := 0xFFFD

/-- Internal chunk return code 0xFFFE (end of file / short read). -/
def CHUNK_EOF : Int := 0xFFFE

/-- Internal chunk return code 0xFFFF (malformed data). -/
def CHUNK_BAD : Int := 0xFFFF

/-- External error code AVERROR_INVALIDDATA = -MKTAG of INDA. -/
def AVERROR_INVALIDDATA : Int := -0x41444E49

/-- External error code AVERROR of EIO (-5 on linux). -/
def AVERROR_IOFAIL : Int := -5

/-- External error code AVERROR of ENOMEM (-12). -/
def AVERROR_ENOMEM : Int := -12

/-- External error code AVERROR_EOF = -MKTAG of EOF and space. -/
def AVERROR_EOF : Int := -0x20464F45

/-- External error code AVERROR of EINVAL (-22), returned by av_new_packet
for a negative size. -/
def AVERROR_EINVAL : Int := -22

/-- Maximum probe confidence AVPROBE_SCORE_MAX (100). -/
def AVPROBE_SCORE_MAX : Int := 100

/-- Model of an AVIOContext: the underlying bytes, the current position and
the eof_reached flag (set once a read fails to deliver all requested bytes). -/
structure Reader where
  data : List Nat
  pos : Int
  eofReached : Bool
deriving DecidableEq, Repr

/-- Bytes obtainable from position `p` of byte list `d`, at most `n` of them.
Reads at negative positions deliver nothing. -/
def bytesAt (d : List Nat) (p : Int) (n : Nat) : List Nat :=
  if 0 ≤ p then (d.drop p.toNat).take n else []

/-- Model of avio_read: returns the number of bytes actually read, the bytes,
and the advanced reader.  A short read sets the eof_reached flag. -/
def avioRead (pb : Reader) (n : Int) : Int × List Nat × Reader :=
  (((bytesAt pb.data pb.pos n.toNat).length : Int),
   bytesAt pb.data pb.pos n.toNat,
   { pb with pos := pb.pos + ((bytesAt pb.data pb.pos n.toNat).length : Int),
             eofReached := pb.eofReached ||
               decide ((bytesAt pb.data pb.pos n.toNat).length < n.toNat) })

/-- Model of avio_skip (relative seek). -/
def avioSkip (pb : Reader) (n : Int) : Reader := { pb with pos := pb.pos + n }

/-- Model of avio_seek with SEEK_SET. -/
def avioSeekSet (pb : Reader) (p : Int) : Reader := { pb with pos := p }

/-- Model of avio_tell. -/
def avioTell (pb : Reader) : Int := pb.pos

/-- Model of url_feof: the eof_reached flag. -/
def urlFeof (pb : Reader) : Bool := pb.eofReached

/-- Model of avio_r8: one byte, or 0 with the eof flag set past the end. -/
def avioR8 (pb : Reader) : Nat × Reader :=
  if 0 ≤ pb.pos ∧ pb.pos.toNat < pb.data.length then
    (pb.data.getD pb.pos.toNat 0, { pb with pos := pb.pos + 1 })
  else
    (0, { pb with eofReached := true })

/-- Little-endian 16-bit read at index `i` of a byte list (AV_RL16). -/
def AV_RL16 (b : List Nat) (i : Nat) : Nat := b.getD i 0 + 256 * b.getD (i + 1) 0

/-- Little-endian 32-bit read at index `i` of a byte list (AV_RL32). -/
def AV_RL32 (b : List Nat) (i : Nat) : Nat :=
  b.getD i 0 + 256 * b.getD (i + 1) 0 + 65536 * b.getD (i + 2) 0 +
    16777216 * b.getD (i + 3) 0

/-- Audio codec selected by the init-audio opcode (CODEC_ID_NONE is the
zero value, used for silent files). -/
inductive AudioType where
  | codecNone
  | pcmU8
  | pcmS16le
  | interplayDpcm
deriving DecidableEq, Repr

/-- Model of an AVPacket as filled by this demuxer: stream index, pts, the
payload bytes, the recorded file position, and the optional palette side
data (the 256 packed palette entries). -/
structure Packet where
  stream_index : Int
  pts : Int
  data : List Nat
  pos : Int
  side_palette : Option (List Nat)
deriving DecidableEq, Repr

/-- Packet with all fields zeroed, before the demuxer fills it. -/
def emptyPacket : Packet :=
  { stream_index := 0, pts := 0, data := [], pos := 0, side_palette := Option.none }

/-- Model of the IPMVEContext structure of ipmovie.c. -/
structure IPMVEContext where
  frame_pts_inc : Nat
  video_bpp : Nat
  video_width : Nat
  video_height : Nat
  video_pts : Int
  palette : Nat → Nat
  has_palette : Bool
  audio_bits : Nat
  audio_channels : Nat
  audio_sample_rate : Nat
  audio_type : AudioType
  audio_frame_count : Nat
  video_stream_index : Int
  audio_stream_index : Int
  audio_chunk_offset : Int
  audio_chunk_size : Int
  video_chunk_offset : Int
  video_chunk_size : Int
  decode_map_chunk_offset : Int
  decode_map_chunk_size : Int
  next_chunk_offset : Int

/-- Model of av_get_packet: for a negative size av_new_packet fails with
AVERROR(EINVAL); otherwise the packet records the position before the read
and the bytes read, and the return value is the byte count actually read. -/
def avGetPacket (pb : Reader) (size : Int) : Int × Packet × Reader :=
  if size < 0 then (AVERROR_EINVAL, emptyPacket, pb)
  else
    ((avioRead pb size).1,
     { emptyPacket with data := (avioRead pb size).2.1, pos := avioTell pb },
     (avioRead pb size).2.2)

/-- Palette side data: the 256 packed 0x00RRGGBB entries. -/
def paletteSideData (s : IPMVEContext) : List Nat := (List.range 256).map s.palette

/-- Model of load_ipmovie_packet: drain a pending audio packet first, then a
pending video packet (decoding map plus video data), else seek to the next
chunk and report CHUNK_DONE.  Returns the chunk code, the new state, the new
reader and the emitted packet, if any. -/
def loadPacket (s : IPMVEContext) (pb : Reader) :
    Int × IPMVEContext × Reader × Option Packet :=
  if s.audio_chunk_offset ≠ 0 then
    let s1 :=
      if s.audio_type ≠ AudioType.interplayDpcm then
        { s with audio_chunk_offset := s.audio_chunk_offset + 6,
                 audio_chunk_size := s.audio_chunk_size - 6 }
      else s
    let pb1 := avioSeekSet pb s1.audio_chunk_offset
    let s2 := { s1 with audio_chunk_offset := 0 }
    let g := avGetPacket pb1 s2.audio_chunk_size
    if s2.audio_chunk_size ≠ g.1 then
      (CHUNK_EOF, s2, g.2.2, Option.none)
    else
      let pkt := { g.2.1 with stream_index := s2.audio_stream_index,
                              pts := (s2.audio_frame_count : Int) }
      let delta : Nat :=
        if s2.audio_type ≠ AudioType.interplayDpcm then
          s2.audio_chunk_size.toNat / s2.audio_channels / (s2.audio_bits / 8)
        else
          ((s2.audio_chunk_size - 6) % (2 ^ 32 : Int)).toNat / s2.audio_channels
      let s3 := { s2 with audio_frame_count := (s2.audio_frame_count + delta) % 2 ^ 32 }
      (CHUNK_VIDEO, s3, g.2.2, Option.some pkt)
  else if s.decode_map_chunk_offset ≠ 0 then
    if s.decode_map_chunk_size + s.video_chunk_size < 0 then
      (CHUNK_NOMEM, s, pb, Option.none)
    else
      let sidePal := if s.has_palette then Option.some (paletteSideData s) else Option.none
      let s1 := { s with has_palette := false }
      let pktPos := s1.decode_map_chunk_offset
      let pb1 := avioSeekSet pb s1.decode_map_chunk_offset
      let s2 := { s1 with decode_map_chunk_offset := 0 }
      let r1 := avioRead pb1 s2.decode_map_chunk_size
      if r1.1 ≠ s2.decode_map_chunk_size then
        (CHUNK_EOF, s2, r1.2.2, Option.none)
      else
        let pb2 := avioSeekSet r1.2.2 s2.video_chunk_offset
        let s3 := { s2 with video_chunk_offset := 0 }
        let r2 := avioRead pb2 s3.video_chunk_size
        if r2.1 ≠ s3.video_chunk_size then
          (CHUNK_EOF, s3, r2.2.2, Option.none)
        else
          let pkt : Packet :=
            { stream_index := s3.video_stream_index, pts := s3.video_pts,
              data := r1.2.1 ++ r2.2.1, pos := pktPos, side_palette := sidePal }
          let s4 := { s3 with video_pts := s3.video_pts + (s3.frame_pts_inc : Int) }
          (CHUNK_VIDEO, s4, r2.2.2, Option.some pkt)
  else
    (CHUNK_DONE, s, avioSeekSet pb s.next_chunk_offset, Option.none)

/-- Handler of the create-timer opcode (0x02): validate version and size,
read the body, set frame_pts_inc = u32 rate times u16 subdivision. -/
def opCreateTimer (s : IPMVEContext) (pb : Reader) (chunkType : Int)
    (osz over : Nat) : IPMVEContext × Reader × Int :=
  if 0 < over ∨ 6 < osz then (s, pb, CHUNK_BAD)
  else if (avioRead pb (osz : Int)).1 ≠ (osz : Int) then
    (s, (avioRead pb (osz : Int)).2.2, CHUNK_BAD)
  else
    ({ s with frame_pts_inc :=
        AV_RL32 (avioRead pb (osz : Int)).2.1 0 * AV_RL16 (avioRead pb (osz : Int)).2.1 4 },
     (avioRead pb (osz : Int)).2.2, chunkType)

/-- Handler of the init-audio-buffers opcode (0x03): validate, read the body,
decode flags (bit 0 stereo, bit 1 16-bit, bit 2 compressed when version 1). -/
def opInitAudio (s : IPMVEContext) (pb : Reader) (chunkType : Int)
    (osz over : Nat) : IPMVEContext × Reader × Int :=
  if 1 < over ∨ 10 < osz then (s, pb, CHUNK_BAD)
  else if (avioRead pb (osz : Int)).1 ≠ (osz : Int) then
    (s, (avioRead pb (osz : Int)).2.2, CHUNK_BAD)
  else
    ({ s with audio_sample_rate := AV_RL16 (avioRead pb (osz : Int)).2.1 4,
              audio_channels := (AV_RL16 (avioRead pb (osz : Int)).2.1 2 &&& 1) + 1,
              audio_bits := (((AV_RL16 (avioRead pb (osz : Int)).2.1 2 >>> 1) &&& 1) + 1) * 8,
              audio_type :=
                if over = 1 ∧ AV_RL16 (avioRead pb (osz : Int)).2.1 2 &&& 4 ≠ 0 then
                  AudioType.interplayDpcm
                else if (((AV_RL16 (avioRead pb (osz : Int)).2.1 2 >>> 1) &&& 1) + 1) * 8 = 16 then
                  AudioType.pcmS16le
                else AudioType.pcmU8 },
     (avioRead pb (osz : Int)).2.2, chunkType)

/-- Handler of the init-video-buffers opcode (0x05): validate, read the body,
set width and height (times 8) and bpp (16 only for version 2 with a nonzero
u16 at offset 6). -/
def opInitVideo (s : IPMVEContext) (pb : Reader) (chunkType : Int)
    (osz over : Nat) : IPMVEContext × Reader × Int :=
  if 2 < over ∨ 8 < osz then (s, pb, CHUNK_BAD)
  else if (avioRead pb (osz : Int)).1 ≠ (osz : Int) then
    (s, (avioRead pb (osz : Int)).2.2, CHUNK_BAD)
  else
    ({ s with video_width := AV_RL16 (avioRead pb (osz : Int)).2.1 0 * 8,
              video_height := AV_RL16 (avioRead pb (osz : Int)).2.1 2 * 8,
              video_bpp :=
                if over < 2 ∨ AV_RL16 (avioRead pb (osz : Int)).2.1 6 = 0 then 8 else 16 },
     (avioRead pb (osz : Int)).2.2, chunkType)

/-- Palette table resulting from a set-palette body: entries from first to
first + count - 1 are rebuilt from 6-bit components scaled by 4 (each stored
through an unsigned char, hence the mod 256). -/
def setPaletteFun (old : Nat → Nat) (scratch : List Nat) : Nat → Nat :=
  fun i =>
    if (AV_RL16 scratch 0 : Int) ≤ (i : Int) ∧
        (i : Int) ≤ (AV_RL16 scratch 0 : Int) + (AV_RL16 scratch 2 : Int) - 1 then
      ((scratch.getD (4 + 3 * (i - AV_RL16 scratch 0)) 0 * 4 % 256) <<< 16) |||
      ((scratch.getD (4 + 3 * (i - AV_RL16 scratch 0) + 1) 0 * 4 % 256) <<< 8) |||
      (scratch.getD (4 + 3 * (i - AV_RL16 scratch 0) + 2) 0 * 4 % 256)
    else old i

/-- Handler of the set-palette opcode (0x0C): validate the size bound, read
the body, range-check first and last colour (as signed 16-bit-derived ints),
rebuild the palette and raise has_palette. -/
def opSetPalette (s : IPMVEContext) (pb : Reader) (chunkType : Int)
    (osz : Nat) : IPMVEContext × Reader × Int :=
  if 0x304 < osz then (s, pb, CHUNK_BAD)
  else if (avioRead pb (osz : Int)).1 ≠ (osz : Int) then
    (s, (avioRead pb (osz : Int)).2.2, CHUNK_BAD)
  else if 0xFF < (AV_RL16 (avioRead pb (osz : Int)).2.1 0 : Int) ∨
      0xFF < (AV_RL16 (avioRead pb (osz : Int)).2.1 0 : Int) +
        (AV_RL16 (avioRead pb (osz : Int)).2.1 2 : Int) - 1 then
    (s, (avioRead pb (osz : Int)).2.2, CHUNK_BAD)
  else
    ({ s with palette := setPaletteFun s.palette (avioRead pb (osz : Int)).2.1,
              has_palette := true },
     (avioRead pb (osz : Int)).2.2, chunkType)

/-- Model of one arm of the opcode switch of process_ipmovie_chunk.  Takes the
state, the reader positioned right after the opcode preamble, the current
chunk type, and the decoded preamble fields; returns the new state, reader and
chunk type (CHUNK_BAD on a failed validation). -/
def handleOpcode (s : IPMVEContext) (pb : Reader) (chunkType : Int)
    (opcode_size opcode_type opcode_version : Nat) : IPMVEContext × Reader × Int :=
  if opcode_type = 0x02 then opCreateTimer s pb chunkType opcode_size opcode_version
  else if opcode_type = 0x03 then opInitAudio s pb chunkType opcode_size opcode_version
  else if opcode_type = 0x05 then opInitVideo s pb chunkType opcode_size opcode_version
  else if opcode_type = 0x08 then
    ({ s with audio_chunk_offset := avioTell pb, audio_chunk_size := (opcode_size : Int) },
     avioSkip pb (opcode_size : Int), chunkType)
  else if opcode_type = 0x0C then opSetPalette s pb chunkType opcode_size
  else if opcode_type = 0x0F then
    ({ s with decode_map_chunk_offset := avioTell pb,
              decode_map_chunk_size := (opcode_size : Int) },
     avioSkip pb (opcode_size : Int), chunkType)
  else if opcode_type = 0x11 then
    ({ s with video_chunk_offset := avioTell pb, video_chunk_size := (opcode_size : Int) },
     avioSkip pb (opcode_size : Int), chunkType)
  else if opcode_type = 0x00 ∨ opcode_type = 0x01 ∨ opcode_type = 0x04 ∨
          opcode_type = 0x06 ∨ opcode_type = 0x07 ∨ opcode_type = 0x09 ∨
          opcode_type = 0x0A ∨ opcode_type = 0x0B ∨ opcode_type = 0x0D ∨
          opcode_type = 0x0E ∨ opcode_type = 0x10 ∨ opcode_type = 0x12 ∨
          opcode_type = 0x13 ∨ opcode_type = 0x14 ∨ opcode_type = 0x15 then
    (s, avioSkip pb (opcode_size : Int), chunkType)
  else (s, pb, CHUNK_BAD)

/-- Model of the opcode loop of process_ipmovie_chunk.  The loop runs while
the remaining chunk byte budget is positive and the chunk type has not become
CHUNK_BAD; each iteration reads a 4-byte opcode preamble, subtracts
4 + opcode_size from the budget (CHUNK_BAD if the budget turns negative) and
dispatches on the opcode type.  The fuel argument only bounds the number of
iterations; process_ipmovie_chunk supplies enough fuel, since every iteration
consumes at least 4 budget bytes. -/
def opcodeLoop : Nat → IPMVEContext → Reader → Int → Int → IPMVEContext × Reader × Int
  | 0, s, pb, _, chunkType => (s, pb, chunkType)
  | Nat.succ fuel, s, pb, chunkSize, chunkType =>
    if ¬(0 < chunkSize ∧ chunkType ≠ CHUNK_BAD) then (s, pb, chunkType)
    else if urlFeof pb then (s, pb, CHUNK_EOF)
    else if (avioRead pb 4).1 ≠ 4 then (s, (avioRead pb 4).2.2, CHUNK_BAD)
    else if chunkSize - 4 - (AV_RL16 (avioRead pb 4).2.1 0 : Int) < 0 then
      (s, (avioRead pb 4).2.2, CHUNK_BAD)
    else
      opcodeLoop fuel
        (handleOpcode s (avioRead pb 4).2.2 chunkType (AV_RL16 (avioRead pb 4).2.1 0)
          ((avioRead pb 4).2.1.getD 2 0) ((avioRead pb 4).2.1.getD 3 0)).1
        (handleOpcode s (avioRead pb 4).2.2 chunkType (AV_RL16 (avioRead pb 4).2.1 0)
          ((avioRead pb 4).2.1.getD 2 0) ((avioRead pb 4).2.1.getD 3 0)).2.1
        (chunkSize - 4 - (AV_RL16 (avioRead pb 4).2.1 0 : Int))
        (handleOpcode s (avioRead pb 4).2.2 chunkType (AV_RL16 (avioRead pb 4).2.1 0)
          ((avioRead pb 4).2.1.getD 2 0) ((avioRead pb 4).2.1.getD 3 0)).2.2

/-- End of process_ipmovie_chunk after the opcode loop: record
next_chunk_offset at the current position and, when the chunk was a video or
audio-only chunk, dispatch the first pending packet. -/
def finishChunk (lp : IPMVEContext × Reader × Int) :
    Int × IPMVEContext × Reader × Option Packet :=
  if lp.2.2 = CHUNK_VIDEO ∨ lp.2.2 = CHUNK_AUDIO_ONLY then
    loadPacket { lp.1 with next_chunk_offset := avioTell lp.2.1 } lp.2.1
  else (lp.2.2, { lp.1 with next_chunk_offset := avioTell lp.2.1 }, lp.2.1, Option.none)

/-- Middle of process_ipmovie_chunk: decode the chunk preamble fields (unknown
chunk types become CHUNK_BAD), run the opcode loop over the chunk body, then
finish.  The fuel chunkSize.toNat + 1 bounds the loop iterations, which
consume at least 4 budget bytes each. -/
def chunkAfterPreamble (s1 : IPMVEContext) (pb2 : Reader) (chunkSize ct0 : Int) :
    Int × IPMVEContext × Reader × Option Packet :=
  finishChunk (opcodeLoop (chunkSize.toNat + 1) s1 pb2 chunkSize
    (if ct0 ≤ 5 then ct0 else CHUNK_BAD))

/-- Body of process_ipmovie_chunk once no packet was pending: EOF check, read
the 4-byte chunk preamble (short read is CHUNK_BAD), then parse the chunk. -/
def processChunkBody (s1 : IPMVEContext) (pb1 : Reader) :
    Int × IPMVEContext × Reader × Option Packet :=
  if urlFeof pb1 then (CHUNK_EOF, s1, pb1, Option.none)
  else if (avioRead pb1 4).1 ≠ 4 then (CHUNK_BAD, s1, (avioRead pb1 4).2.2, Option.none)
  else chunkAfterPreamble s1 (avioRead pb1 4).2.2
    (AV_RL16 (avioRead pb1 4).2.1 0 : Int) (AV_RL16 (avioRead pb1 4).2.1 2 : Int)

/-- Model of process_ipmovie_chunk: first dispatch any pending packet; if none
was pending, read and process the next chunk. -/
def processChunk (s : IPMVEContext) (pb : Reader) :
    Int × IPMVEContext × Reader × Option Packet :=
  if (loadPacket s pb).1 ≠ CHUNK_DONE then loadPacket s pb
  else processChunkBody (loadPacket s pb).2.1 (loadPacket s pb).2.2.1

/-- Model of ipmovie_read_packet: run process_ipmovie_chunk once and map the
internal chunk code to the external error code (0 on a delivered packet). -/
def ipmovieReadPacket (s : IPMVEContext) (pb : Reader) :
    Int × IPMVEContext × Reader × Option Packet :=
  (if (processChunk s pb).1 = CHUNK_BAD then AVERROR_INVALIDDATA
   else if (processChunk s pb).1 = CHUNK_EOF then AVERROR_IOFAIL
   else if (processChunk s pb).1 = CHUNK_NOMEM then AVERROR_ENOMEM
   else if (processChunk s pb).1 = CHUNK_VIDEO then 0
   else -1,
   (processChunk s pb).2.1, (processChunk s pb).2.2.1, (processChunk s pb).2.2.2)

/-- The signature array of ipmovie.c including its terminating NUL byte:
sizeof(signature) is 22, so every comparison in the C file uses these
22 bytes. -/
def signature22 : List Nat :=
  [0x49, 0x6E, 0x74, 0x65, 0x72, 0x70, 0x6C, 0x61, 0x79, 0x20,
   0x4D, 0x56, 0x45, 0x20, 0x46, 0x69, 0x6C, 0x65, 0x1A, 0x00, 0x1A, 0x00]

/-- The 21-byte signature as the specification words it (without the
terminating NUL of the C array). -/
def signature21 : List Nat :=
  [0x49, 0x6E, 0x74, 0x65, 0x72, 0x70, 0x6C, 0x61, 0x79, 0x20,
   0x4D, 0x56, 0x45, 0x20, 0x46, 0x69, 0x6C, 0x65, 0x1A, 0x00, 0x1A]

/-- Whether the 22 bytes at offset `o` of the (padded) probe buffer equal the
signature array (the memcmp of ipmovie_probe). -/
def sigMatchAt (padded : List Nat) (o : Nat) : Bool :=
  ((padded.drop o).take 22) = signature22

/-- Model of the do-while loop of ipmovie_probe: compare at offset `o`, then
advance while the pointer stays below buf + len - sizeof(signature). -/
def probeGo (padded : List Nat) (len : Nat) : Nat → Nat → Int
  | _, 0 => 0
  | o, Nat.succ fuel =>
    if sigMatchAt padded o then AVPROBE_SCORE_MAX
    else if (o : Int) + 1 < (len : Int) - 22 then probeGo padded len (o + 1) fuel
    else 0

/-- Model of ipmovie_probe.  The probe buffer carries AVPROBE_PADDING_SIZE
(32) zero bytes beyond buf_size, which the memcmp may legally touch. -/
def ipmovieProbe (buf : List Nat) : Int :=
  probeGo (buf ++ List.replicate 32 0) buf.length 0 (buf.length + 1)

/-- Field resets performed by ipmovie_read_header once the signature has been
matched, including next_chunk_offset = current position + 4. -/
def headerInitState (s : IPMVEContext) (pb : Reader) : IPMVEContext :=
  { s with video_pts := 0, audio_frame_count := 0,
           audio_chunk_offset := 0, video_chunk_offset := 0,
           decode_map_chunk_offset := 0,
           next_chunk_offset := avioTell pb + 4 }

/-- Model of the signature-sync loop of ipmovie_read_header: while the 22-byte
window does not match, shift it left by one, append one more byte, and fail
with end-of-file when the stream runs out.  The fuel bounds iterations; the
caller passes more than the stream length, which suffices because every
iteration consumes one byte. -/
def signatureScan : Nat → List Nat → Reader → Option Reader
  | 0, buf, pb => if buf = signature22 then Option.some pb else Option.none
  | Nat.succ fuel, buf, pb =>
    if buf = signature22 then Option.some pb
    else
      let r := avioR8 pb
      if urlFeof r.2 then Option.none
      else signatureScan fuel (buf.drop 1 ++ [r.1]) r.2

/-- Stream creation at the end of ipmovie_read_header: the video stream gets
index 0; an audio stream (index 1) is created only when audio_type is not
CODEC_ID_NONE.  The boolean reports whether an audio stream was created. -/
def finishHeader (s : IPMVEContext) (pb : Reader) :
    Except Int (IPMVEContext × Reader × Bool) :=
  if s.audio_type ≠ AudioType.codecNone then
    Except.ok ({ s with video_stream_index := 0, audio_stream_index := 1 }, pb, true)
  else Except.ok ({ s with video_stream_index := 0 }, pb, false)

/-- Peek step of ipmovie_read_header: read the next 4-byte chunk preamble
(EIO on a short read), seek back 4 bytes, and either mark the file silent
(peeked type is video) or require the chunk to process to init-audio. -/
def headerPeek (s2 : IPMVEContext) (pb3 : Reader) :
    Except Int (IPMVEContext × Reader × Bool) :=
  if (avioRead pb3 4).1 ≠ 4 then Except.error AVERROR_IOFAIL
  else if (AV_RL16 (avioRead pb3 4).2.1 2 : Int) = CHUNK_VIDEO then
    finishHeader { s2 with audio_type := AudioType.codecNone }
      (avioSkip (avioRead pb3 4).2.2 (-4))
  else if (processChunk s2 (avioSkip (avioRead pb3 4).2.2 (-4))).1 ≠ CHUNK_INIT_AUDIO then
    Except.error AVERROR_INVALIDDATA
  else
    finishHeader (processChunk s2 (avioSkip (avioRead pb3 4).2.2 (-4))).2.1
      (processChunk s2 (avioSkip (avioRead pb3 4).2.2 (-4))).2.2.1

/-- Model of ipmovie_read_header after the signature has been matched: reset
the pending state, require the first chunk to process to CHUNK_INIT_VIDEO,
then peek ahead and create the streams. -/
def readHeaderAfterSig (s : IPMVEContext) (pb : Reader) :
    Except Int (IPMVEContext × Reader × Bool) :=
  if (processChunk (headerInitState s pb) pb).1 ≠ CHUNK_INIT_VIDEO then
    Except.error AVERROR_INVALIDDATA
  else
    headerPeek (processChunk (headerInitState s pb) pb).2.1
      (processChunk (headerInitState s pb) pb).2.2.1

/-- Model of ipmovie_read_header: read 22 bytes (short reads padded with
zeroed memory), run the signature-sync loop, then the post-signature logic. -/
def ipmovieReadHeader (s : IPMVEContext) (pb : Reader) :
    Except Int (IPMVEContext × Reader × Bool) :=
  match signatureScan (pb.data.length + 2)
      ((avioRead pb 22).2.1 ++ List.replicate (22 - (avioRead pb 22).2.1.length) 0)
      (avioRead pb 22).2.2 with
  | Option.none => Except.error AVERROR_EOF
  | Option.some pb2 => readHeaderAfterSig s pb2

/-- Repeated ipmovie_read_packet calls: the list of packets emitted over `n`
calls together with the final state and reader. -/
def runRead (s : IPMVEContext) (pb : Reader) : Nat → List Packet × IPMVEContext × Reader
  | 0 => ([], s, pb)
  | Nat.succ n =>
    ((ipmovieReadPacket s pb).2.2.2.toList ++
       (runRead (ipmovieReadPacket s pb).2.1 (ipmovieReadPacket s pb).2.2.1 n).1,
     (runRead (ipmovieReadPacket s pb).2.1 (ipmovieReadPacket s pb).2.2.1 n).2.1,
     (runRead (ipmovieReadPacket s pb).2.1 (ipmovieReadPacket s pb).2.2.1 n).2.2)

/-- Demuxer state after `n` ipmovie_read_packet calls. -/
def stateAfter (s : IPMVEContext) (pb : Reader) (n : Nat) : IPMVEContext :=
  (runRead s pb n).2.1

/-- Pending audio offset after the PCM sub-header adjustment performed at the
top of load_ipmovie_packet (unchanged for Interplay DPCM). -/
def audioAdjOffset (s : IPMVEContext) : Int :=
  if s.audio_type ≠ AudioType.interplayDpcm then s.audio_chunk_offset + 6
  else s.audio_chunk_offset

/-- Pending audio size after the PCM sub-header adjustment performed at the
top of load_ipmovie_packet (unchanged for Interplay DPCM). -/
def audioAdjSize (s : IPMVEContext) : Int :=
  if s.audio_type ≠ AudioType.interplayDpcm then s.audio_chunk_size - 6
  else s.audio_chunk_size

/-- Sample-count advance exactly as the specification words it: payload size
divided by channels and bytes per sample for the PCM codecs, and
(original size - 6) divided by channels for Interplay DPCM.  Stated for
comparison against the update the code performs. -/
def claimedAudioAdvance (s : IPMVEContext) : Nat :=
  if s.audio_type ≠ AudioType.interplayDpcm then
    (s.audio_chunk_size - 6).toNat / s.audio_channels / (s.audio_bits / 8)
  else
    (s.audio_chunk_size - 6).toNat / s.audio_channels

/-- Sample-count advance as the code computes it, phrased over the
pre-adjustment state: for PCM the adjusted (stripped) size divided by
channels and bytes per sample; for DPCM the signed difference size - 6
converted to a 32-bit unsigned value (the C int-to-unsigned conversion in
the division by the unsigned channel count) divided by channels. -/
def audioDelta (s : IPMVEContext) : Nat :=
  if s.audio_type ≠ AudioType.interplayDpcm then
    (s.audio_chunk_size - 6).toNat / s.audio_channels / (s.audio_bits / 8)
  else
    ((s.audio_chunk_size - 6) % (2 ^ 32 : Int)).toNat / s.audio_channels

/-- Zero-initialized demuxer context (priv_data is allocated zeroed), with
stream indices video = 7 and audio = 3 so the two are distinguishable. -/
def baseContext : IPMVEContext :=
  { frame_pts_inc := 0, video_bpp := 0, video_width := 0, video_height := 0,
    video_pts := 0, palette := fun _ => 0, has_palette := false,
    audio_bits := 0, audio_channels := 0, audio_sample_rate := 0,
    audio_type := AudioType.codecNone, audio_frame_count := 0,
    video_stream_index := 7, audio_stream_index := 3,
    audio_chunk_offset := 0, audio_chunk_size := 0,
    video_chunk_offset := 0, video_chunk_size := 0,
    decode_map_chunk_offset := 0, decode_map_chunk_size := 0,
    next_chunk_offset := 0 }

/-- Input for the C2 counterexample: one video chunk (type 0x0003, 5 body
bytes) whose only opcode is set-decoding-map (0x0F, 1 byte); there is no
video-data opcode (0x11) anywhere in the stream. -/
def c2Reader : Reader :=
  { data := [0x05, 0x00, 0x03, 0x00, 0x01, 0x00, 0x0F, 0x00, 0xAA],
    pos := 0, eofReached := false }

/-- State with only a pending decoding map (no video-data opcode was ever
recorded: video_chunk_offset and video_chunk_size are still 0). -/
def c2LoadCtx : IPMVEContext :=
  { baseContext with decode_map_chunk_offset := 8, decode_map_chunk_size := 1 }

/-- Reader for exercising loadPacket on c2LoadCtx. -/
def c2LoadReader : Reader :=
  { data := [0, 1, 2, 3, 4, 5, 6, 7, 0xBB], pos := 0, eofReached := false }

/-- Input for the C5 counterexample: a video chunk declaring 10 body bytes
whose create-timer opcode (0x02) declares 6 body bytes, but the file ends
after only 3 of them. -/
def c5Reader : Reader :=
  { data := [0x0A, 0x00, 0x03, 0x00, 0x06, 0x00, 0x02, 0x00, 0x01, 0x02, 0x03],
    pos := 0, eofReached := false }

/-- Input for the C6 counterexample: a buffer whose last 21 bytes are exactly
the 21-byte signature, preceded by 22 bytes of 0xFF. -/
def c6Buf : List Nat := List.replicate 22 0xFF ++ signature21

/-- Failing input for C9: a pending non-DPCM (PCM unsigned 8-bit) audio-frame
opcode whose recorded size is 4, which is less than the 6-byte sub-header. -/
def c9Ctx : IPMVEContext :=
  { baseContext with audio_type := AudioType.pcmU8, audio_chunk_offset := 10,
                     audio_chunk_size := 4, audio_channels := 1, audio_bits := 8 }

/-- Reader for the C9 failing input (file contents are irrelevant: the
negative adjusted size alone causes the failure). -/
def c9Reader : Reader :=
  { data := List.replicate 32 0x55, pos := 0, eofReached := false }

/-- Input for the C10 witness: a pending PCM audio payload of 20 bytes at
offset 5 in a 16-byte file, so draining it hits a short read. -/
def c10Ctx : IPMVEContext :=
  { baseContext with audio_type := AudioType.pcmU8, audio_chunk_offset := 5,
                     audio_chunk_size := 20, audio_channels := 1, audio_bits := 8 }

/-- Reader for the C10 witness. -/
def c10Reader : Reader :=
  { data := List.replicate 16 0x55, pos := 0, eofReached := false }

/-- Input for the C4 and C1 witnesses: a pending PCM audio payload (opcode
size 10, so 4 payload bytes at adjusted offset 10) and a pending video pair
(decoding map: 2 bytes at offset 20; video data: 3 bytes at offset 25). -/
def c1Ctx : IPMVEContext :=
  { baseContext with audio_type := AudioType.pcmU8, audio_chunk_offset := 4,
                     audio_chunk_size := 10, audio_channels := 1, audio_bits := 8,
                     frame_pts_inc := 11,
                     decode_map_chunk_offset := 20, decode_map_chunk_size := 2,
                     video_chunk_offset := 25, video_chunk_size := 3 }

/-- Reader for the C4 and C1 witnesses. -/
def c1Reader : Reader :=
  { data := List.replicate 30 0x44, pos := 0, eofReached := false }

/-- Input for the C7 witness: an opcode preamble declaring 6 body bytes inside
a chunk whose remaining budget is only 5 bytes. -/
def c7Reader : Reader :=
  { data := [0x06, 0x00, 0x02, 0x00, 0x01, 0x02, 0x03, 0x04, 0x05, 0x06],
    pos := 0, eofReached := false }

/-- Input for the C8 witness: 4 filler bytes, an empty init-video chunk
(type 0x0002), then the preamble of a video chunk (type 0x0003), making a
silent file. -/
def c8Reader : Reader :=
  { data := [0, 0, 0, 0, 0x00, 0x00, 0x02, 0x00, 0x00, 0x00, 0x03, 0x00],
    pos := 0, eofReached := false }

/-- Input for the C3 witness: a pending decoding map of size 0 at offset 1
with no pending audio, so one call emits one video packet. -/
def c3Ctx : IPMVEContext :=
  { baseContext with frame_pts_inc := 5, decode_map_chunk_offset := 1,
                     decode_map_chunk_size := 0 }

/-- Reader for the C3 witness. -/
def c3Reader : Reader := { data := [0, 0], pos := 0, eofReached := false }

/-- Input for the C5 witness: a lone chunk preamble declaring the unknown
chunk type 0x00FF. -/
def c5BadTypeReader : Reader :=
  { data := [0x00, 0x00, 0xFF, 0x00], pos := 0, eofReached := false }

/-- Input for the C6 witness: the 22-byte signature array at offset 0,
followed by two filler bytes. -/
def c6GoodBuf : List Nat := signature22 ++ [0x99, 0x98]

/-- State after the first (init-video) chunk of the C8 witness file has been
processed: the next chunk preamble starts at offset 8. -/
def c8S2 : IPMVEContext := { baseContext with next_chunk_offset := 8 }

/-- Reader position after processing the first chunk of the C8 witness. -/
def c8Pb3 : Reader := { data := c8Reader.data, pos := 8, eofReached := false }

/-- Reader position after peeking the second chunk preamble of the C8
witness. -/
def c8Pb4 : Reader := { data := c8Reader.data, pos := 12, eofReached := false }

theorem loadPacket_done (s : IPMVEContext) (pb : Reader)
    (ha : s.audio_chunk_offset = 0) (hd : s.decode_map_chunk_offset = 0) :
    loadPacket s pb = (CHUNK_DONE, s, avioSeekSet pb s.next_chunk_offset, Option.none) := by
  simp [loadPacket, ha, hd]

theorem loadPacket_audio (s : IPMVEContext) (pb : Reader) (ha : s.audio_chunk_offset ≠ 0) :
    loadPacket s pb =
      (if audioAdjSize s ≠ (avGetPacket (avioSeekSet pb (audioAdjOffset s)) (audioAdjSize s)).1 then
        (CHUNK_EOF,
         { s with audio_chunk_offset := 0, audio_chunk_size := audioAdjSize s },
         (avGetPacket (avioSeekSet pb (audioAdjOffset s)) (audioAdjSize s)).2.2, Option.none)
      else
        (CHUNK_VIDEO,
         { s with audio_chunk_offset := 0, audio_chunk_size := audioAdjSize s,
                  audio_frame_count := (s.audio_frame_count + audioDelta s) % 2 ^ 32 },
         (avGetPacket (avioSeekSet pb (audioAdjOffset s)) (audioAdjSize s)).2.2,
         Option.some
           { stream_index := s.audio_stream_index, pts := (s.audio_frame_count : Int),
             data := (avGetPacket (avioSeekSet pb (audioAdjOffset s)) (audioAdjSize s)).2.1.data,
             pos := (avGetPacket (avioSeekSet pb (audioAdjOffset s)) (audioAdjSize s)).2.1.pos,
             side_palette :=
               (avGetPacket (avioSeekSet pb (audioAdjOffset s)) (audioAdjSize s)).2.1.side_palette })) := by
  by_cases hdp : s.audio_type ≠ AudioType.interplayDpcm <;>
    simp [loadPacket, audioAdjOffset, audioAdjSize, audioDelta, ha, hdp]

theorem loadPacket_video (s : IPMVEContext) (pb : Reader)
    (ha : s.audio_chunk_offset = 0) (hd : s.decode_map_chunk_offset ≠ 0) :
    loadPacket s pb =
      (if s.decode_map_chunk_size + s.video_chunk_size < 0 then
        (CHUNK_NOMEM, s, pb, Option.none)
      else
        if (avioRead (avioSeekSet pb s.decode_map_chunk_offset) s.decode_map_chunk_size).1
            ≠ s.decode_map_chunk_size then
          (CHUNK_EOF, { s with has_palette := false, decode_map_chunk_offset := 0 },
           (avioRead (avioSeekSet pb s.decode_map_chunk_offset) s.decode_map_chunk_size).2.2,
           Option.none)
        else
          if (avioRead (avioSeekSet
                (avioRead (avioSeekSet pb s.decode_map_chunk_offset) s.decode_map_chunk_size).2.2
                s.video_chunk_offset) s.video_chunk_size).1 ≠ s.video_chunk_size then
            (CHUNK_EOF,
             { s with has_palette := false, decode_map_chunk_offset := 0, video_chunk_offset := 0 },
             (avioRead (avioSeekSet
                (avioRead (avioSeekSet pb s.decode_map_chunk_offset) s.decode_map_chunk_size).2.2
                s.video_chunk_offset) s.video_chunk_size).2.2,
             Option.none)
          else
            (CHUNK_VIDEO,
             { s with has_palette := false, decode_map_chunk_offset := 0, video_chunk_offset := 0,
                      video_pts := s.video_pts + (s.frame_pts_inc : Int) },
             (avioRead (avioSeekSet
                (avioRead (avioSeekSet pb s.decode_map_chunk_offset) s.decode_map_chunk_size).2.2
                s.video_chunk_offset) s.video_chunk_size).2.2,
             Option.some
               { stream_index := s.video_stream_index, pts := s.video_pts,
                 data := (avioRead (avioSeekSet pb s.decode_map_chunk_offset)
                            s.decode_map_chunk_size).2.1 ++
                         (avioRead (avioSeekSet
                            (avioRead (avioSeekSet pb s.decode_map_chunk_offset)
                              s.decode_map_chunk_size).2.2
                            s.video_chunk_offset) s.video_chunk_size).2.1,
                 pos := s.decode_map_chunk_offset,
                 side_palette := if s.has_palette then Option.some (paletteSideData s)
                                 else Option.none })) := by
  simp [loadPacket, ha, hd]

theorem opcodeLoop_bad (fuel : Nat) (s : IPMVEContext) (pb : Reader) (cs : Int) :
    opcodeLoop fuel s pb cs CHUNK_BAD = (s, pb, CHUNK_BAD) := by
  cases fuel <;> simp [opcodeLoop]

theorem avGetPacket_data (pb : Reader) (n : Int) : (avGetPacket pb n).2.2.data = pb.data := by
  unfold avGetPacket
  split <;> rfl

theorem processChunk_of_loadPacket_video (s : IPMVEContext) (pb : Reader)
    (s' : IPMVEContext) (pb' : Reader) (q : Option Packet)
    (h : loadPacket s pb = (CHUNK_VIDEO, s', pb', q)) :
    processChunk s pb = (CHUNK_VIDEO, s', pb', q) := by
  unfold processChunk
  rw [h]
  norm_num [CHUNK_VIDEO, CHUNK_DONE]

theorem readPacket_of_processChunk_video (s : IPMVEContext) (pb : Reader)
    (s' : IPMVEContext) (pb' : Reader) (q : Option Packet)
    (h : processChunk s pb = (CHUNK_VIDEO, s', pb', q)) :
    ipmovieReadPacket s pb = (0, s', pb', q) := by
  unfold ipmovieReadPacket
  rw [h]
  norm_num [CHUNK_VIDEO, CHUNK_BAD, CHUNK_EOF, CHUNK_NOMEM]

theorem opCreateTimer_preserves (s : IPMVEContext) (pb : Reader) (ct : Int) (osz over : Nat) :
    (opCreateTimer s pb ct osz over).1.video_pts = s.video_pts ∧
    (opCreateTimer s pb ct osz over).1.video_stream_index = s.video_stream_index ∧
    (opCreateTimer s pb ct osz over).1.audio_stream_index = s.audio_stream_index := by
  unfold opCreateTimer
  split
  · exact ⟨rfl, rfl, rfl⟩
  split <;> exact ⟨rfl, rfl, rfl⟩

theorem opInitAudio_preserves (s : IPMVEContext) (pb : Reader) (ct : Int) (osz over : Nat) :
    (opInitAudio s pb ct osz over).1.video_pts = s.video_pts ∧
    (opInitAudio s pb ct osz over).1.video_stream_index = s.video_stream_index ∧
    (opInitAudio s pb ct osz over).1.audio_stream_index = s.audio_stream_index := by
  unfold opInitAudio
  split
  · exact ⟨rfl, rfl, rfl⟩
  split <;> exact ⟨rfl, rfl, rfl⟩

theorem opInitVideo_preserves (s : IPMVEContext) (pb : Reader) (ct : Int) (osz over : Nat) :
    (opInitVideo s pb ct osz over).1.video_pts = s.video_pts ∧
    (opInitVideo s pb ct osz over).1.video_stream_index = s.video_stream_index ∧
    (opInitVideo s pb ct osz over).1.audio_stream_index = s.audio_stream_index := by
  unfold opInitVideo
  split
  · exact ⟨rfl, rfl, rfl⟩
  split <;> exact ⟨rfl, rfl, rfl⟩

theorem opSetPalette_preserves (s : IPMVEContext) (pb : Reader) (ct : Int) (osz : Nat) :
    (opSetPalette s pb ct osz).1.video_pts = s.video_pts ∧
    (opSetPalette s pb ct osz).1.video_stream_index = s.video_stream_index ∧
    (opSetPalette s pb ct osz).1.audio_stream_index = s.audio_stream_index := by
  unfold opSetPalette
  split
  · exact ⟨rfl, rfl, rfl⟩
  split
  · exact ⟨rfl, rfl, rfl⟩
  split <;> exact ⟨rfl, rfl, rfl⟩

theorem handleOpcode_preserves (s : IPMVEContext) (pb : Reader) (ct : Int)
    (osz oty over : Nat) :
    (handleOpcode s pb ct osz oty over).1.video_pts = s.video_pts ∧
    (handleOpcode s pb ct osz oty over).1.video_stream_index = s.video_stream_index ∧
    (handleOpcode s pb ct osz oty over).1.audio_stream_index = s.audio_stream_index := by
  unfold handleOpcode
  split
  · exact opCreateTimer_preserves s pb ct osz over
  split
  · exact opInitAudio_preserves s pb ct osz over
  split
  · exact opInitVideo_preserves s pb ct osz over
  split
  · exact ⟨rfl, rfl, rfl⟩
  split
  · exact opSetPalette_preserves s pb ct osz
  split
  · exact ⟨rfl, rfl, rfl⟩
  split
  · exact ⟨rfl, rfl, rfl⟩
  split
  · exact ⟨rfl, rfl, rfl⟩
  · exact ⟨rfl, rfl, rfl⟩

theorem opcodeLoop_preserves (fuel : Nat) :
    ∀ (s : IPMVEContext) (pb : Reader) (cs ct : Int),
    (opcodeLoop fuel s pb cs ct).1.video_pts = s.video_pts ∧
    (opcodeLoop fuel s pb cs ct).1.video_stream_index = s.video_stream_index ∧
    (opcodeLoop fuel s pb cs ct).1.audio_stream_index = s.audio_stream_index := by
  induction fuel with
  | zero => intro s pb cs ct; exact ⟨rfl, rfl, rfl⟩
  | succ fuel ih =>
    intro s pb cs ct
    rw [opcodeLoop]
    split
    · exact ⟨rfl, rfl, rfl⟩
    split
    · exact ⟨rfl, rfl, rfl⟩
    split
    · exact ⟨rfl, rfl, rfl⟩
    split
    · exact ⟨rfl, rfl, rfl⟩
    · obtain ⟨h1, h2, h3⟩ := handleOpcode_preserves s
        (avioRead pb 4).2.2 ct (AV_RL16 (avioRead pb 4).2.1 0)
        ((avioRead pb 4).2.1.getD 2 0) ((avioRead pb 4).2.1.getD 3 0)
      obtain ⟨g1, g2, g3⟩ := ih _ _ _ _
      exact ⟨g1.trans h1, g2.trans h2, g3.trans h3⟩



theorem loadPacket_step (s : IPMVEContext) (pb : Reader) (r : Int) (s' : IPMVEContext)
    (pb' : Reader) (q : Option Packet) (h : loadPacket s pb = (r, s', pb', q)) :
    s'.video_stream_index = s.video_stream_index ∧
    s'.audio_stream_index = s.audio_stream_index ∧
    ((q = Option.none ∧ s'.video_pts = s.video_pts) ∨
     (∃ p, q = Option.some p ∧ p.stream_index = s.audio_stream_index ∧
        s'.video_pts = s.video_pts) ∨
     (∃ p, q = Option.some p ∧ p.stream_index = s.video_stream_index ∧
        p.pts = s.video_pts ∧ s'.video_pts = s.video_pts + (s'.frame_pts_inc : Int))) := by
  by_cases ha : s.audio_chunk_offset = 0
  · by_cases hd : s.decode_map_chunk_offset = 0
    · rw [loadPacket_done s pb ha hd] at h
      simp only [Prod.mk.injEq] at h
      obtain ⟨rfl, rfl, rfl, rfl⟩ := h
      exact ⟨rfl, rfl, Or.inl ⟨rfl, rfl⟩⟩
    · rw [loadPacket_video s pb ha hd] at h
      split at h
      · simp only [Prod.mk.injEq] at h
        obtain ⟨rfl, rfl, rfl, rfl⟩ := h
        exact ⟨rfl, rfl, Or.inl ⟨rfl, rfl⟩⟩
      split at h
      · simp only [Prod.mk.injEq] at h
        obtain ⟨rfl, rfl, rfl, rfl⟩ := h
        exact ⟨rfl, rfl, Or.inl ⟨rfl, rfl⟩⟩
      split at h
      · simp only [Prod.mk.injEq] at h
        obtain ⟨rfl, rfl, rfl, rfl⟩ := h
        exact ⟨rfl, rfl, Or.inl ⟨rfl, rfl⟩⟩
      · simp only [Prod.mk.injEq] at h
        obtain ⟨rfl, rfl, rfl, rfl⟩ := h
        exact ⟨rfl, rfl, Or.inr (Or.inr ⟨_, rfl, rfl, rfl, rfl⟩)⟩
  · rw [loadPacket_audio s pb ha] at h
    split at h
    · simp only [Prod.mk.injEq] at h
      obtain ⟨rfl, rfl, rfl, rfl⟩ := h
      exact ⟨rfl, rfl, Or.inl ⟨rfl, rfl⟩⟩
    · simp only [Prod.mk.injEq] at h
      obtain ⟨rfl, rfl, rfl, rfl⟩ := h
      exact ⟨rfl, rfl, Or.inr (Or.inl ⟨_, rfl, rfl, rfl⟩)⟩

theorem loadPacket_done_shape (s : IPMVEContext) (pb : Reader)
    (h : (loadPacket s pb).1 = CHUNK_DONE) :
    loadPacket s pb = (CHUNK_DONE, s, avioSeekSet pb s.next_chunk_offset, Option.none) := by
  by_cases ha : s.audio_chunk_offset = 0
  · by_cases hd : s.decode_map_chunk_offset = 0
    · exact loadPacket_done s pb ha hd
    · exfalso
      rw [loadPacket_video s pb ha hd] at h
      split at h
      · exact absurd h (by norm_num [CHUNK_NOMEM, CHUNK_DONE])
      split at h
      · exact absurd h (by norm_num [CHUNK_EOF, CHUNK_DONE])
      split at h
      · exact absurd h (by norm_num [CHUNK_EOF, CHUNK_DONE])
      · exact absurd h (by norm_num [CHUNK_VIDEO, CHUNK_DONE])
  · exfalso
    rw [loadPacket_audio s pb ha] at h
    split at h
    · exact absurd h (by norm_num [CHUNK_EOF, CHUNK_DONE])
    · exact absurd h (by norm_num [CHUNK_VIDEO, CHUNK_DONE])



theorem processChunk_step (s : IPMVEContext) (pb : Reader) (r : Int) (s' : IPMVEContext)
    (pb' : Reader) (q : Option Packet) (h : processChunk s pb = (r, s', pb', q)) :
    s'.video_stream_index = s.video_stream_index ∧
    s'.audio_stream_index = s.audio_stream_index ∧
    ((q = Option.none ∧ s'.video_pts = s.video_pts) ∨
     (∃ p, q = Option.some p ∧ p.stream_index = s.audio_stream_index ∧
        s'.video_pts = s.video_pts) ∨
     (∃ p, q = Option.some p ∧ p.stream_index = s.video_stream_index ∧
        p.pts = s.video_pts ∧ s'.video_pts = s.video_pts + (s'.frame_pts_inc : Int))) := by
  unfold processChunk at h
  by_cases hD : (loadPacket s pb).1 = CHUNK_DONE
  · rw [if_neg (not_not_intro hD), loadPacket_done_shape s pb hD] at h
    dsimp only at h
    unfold processChunkBody at h
    by_cases hfe : urlFeof (avioSeekSet pb s.next_chunk_offset) = true
    · rw [if_pos hfe] at h
      simp only [Prod.mk.injEq] at h
      obtain ⟨rfl, rfl, rfl, rfl⟩ := h
      exact ⟨rfl, rfl, Or.inl ⟨rfl, rfl⟩⟩
    · rw [if_neg hfe] at h
      by_cases hcnt : (avioRead (avioSeekSet pb s.next_chunk_offset) 4).1 = 4
      · rw [if_neg (not_not_intro hcnt)] at h
        unfold chunkAfterPreamble at h
        rcases hLP : opcodeLoop
            ((AV_RL16 (avioRead (avioSeekSet pb s.next_chunk_offset) 4).2.1 0 : Int).toNat + 1)
            s (avioRead (avioSeekSet pb s.next_chunk_offset) 4).2.2
            (AV_RL16 (avioRead (avioSeekSet pb s.next_chunk_offset) 4).2.1 0 : Int)
            (if (AV_RL16 (avioRead (avioSeekSet pb s.next_chunk_offset) 4).2.1 2 : Int) ≤ 5 then
              (AV_RL16 (avioRead (avioSeekSet pb s.next_chunk_offset) 4).2.1 2 : Int)
             else CHUNK_BAD) with ⟨s3, pb3, ct2⟩
        have hpres := opcodeLoop_preserves
            ((AV_RL16 (avioRead (avioSeekSet pb s.next_chunk_offset) 4).2.1 0 : Int).toNat + 1)
            s (avioRead (avioSeekSet pb s.next_chunk_offset) 4).2.2
            (AV_RL16 (avioRead (avioSeekSet pb s.next_chunk_offset) 4).2.1 0 : Int)
            (if (AV_RL16 (avioRead (avioSeekSet pb s.next_chunk_offset) 4).2.1 2 : Int) ≤ 5 then
              (AV_RL16 (avioRead (avioSeekSet pb s.next_chunk_offset) 4).2.1 2 : Int)
             else CHUNK_BAD)
        rw [hLP] at hpres h
        obtain ⟨hv3, hi3, ha3⟩ := hpres
        unfold finishChunk at h
        by_cases hV : (s3, pb3, ct2).2.2 = CHUNK_VIDEO ∨ (s3, pb3, ct2).2.2 = CHUNK_AUDIO_ONLY
        · rw [if_pos hV] at h
          obtain ⟨e1, e2, e3⟩ := loadPacket_step _ _ _ _ _ _ h
          refine ⟨e1.trans hi3, e2.trans ha3, ?_⟩
          rcases e3 with ⟨hq, hvp⟩ | ⟨p, hq, hst, hvp⟩ | ⟨p, hq, hst, hpts, hvp⟩
          · exact Or.inl ⟨hq, hvp.trans hv3⟩
          · exact Or.inr (Or.inl ⟨p, hq, hst.trans ha3, hvp.trans hv3⟩)
          · refine Or.inr (Or.inr ⟨p, hq, hst.trans hi3, ?_, ?_⟩)
            · exact hpts.trans hv3
            · rw [hvp]
              show ({ (s3, pb3, ct2).1 with
                next_chunk_offset := avioTell (s3, pb3, ct2).2.1 } : IPMVEContext).video_pts
                  + (s'.frame_pts_inc : Int) = _
              rw [show ({ (s3, pb3, ct2).1 with
                next_chunk_offset := avioTell (s3, pb3, ct2).2.1 } : IPMVEContext).video_pts
                  = s.video_pts from hv3]
        · rw [if_neg hV] at h
          simp only [Prod.mk.injEq] at h
          obtain ⟨rfl, rfl, rfl, rfl⟩ := h
          exact ⟨hi3, ha3, Or.inl ⟨rfl, hv3⟩⟩
      · rw [if_pos hcnt] at h
        simp only [Prod.mk.injEq] at h
        obtain ⟨rfl, rfl, rfl, rfl⟩ := h
        exact ⟨rfl, rfl, Or.inl ⟨rfl, rfl⟩⟩
  · rw [if_pos hD] at h
    exact loadPacket_step s pb r s' pb' q h



theorem readPacket_step (s : IPMVEContext) (pb : Reader) (r : Int) (s' : IPMVEContext)
    (pb' : Reader) (q : Option Packet) (h : ipmovieReadPacket s pb = (r, s', pb', q)) :
    s'.video_stream_index = s.video_stream_index ∧
    s'.audio_stream_index = s.audio_stream_index ∧
    ((q = Option.none ∧ s'.video_pts = s.video_pts) ∨
     (∃ p, q = Option.some p ∧ p.stream_index = s.audio_stream_index ∧
        s'.video_pts = s.video_pts) ∨
     (∃ p, q = Option.some p ∧ p.stream_index = s.video_stream_index ∧
        p.pts = s.video_pts ∧ s'.video_pts = s.video_pts + (s'.frame_pts_inc : Int))) := by
  unfold ipmovieReadPacket at h
  rcases hP : processChunk s pb with ⟨r0, s0, pb0, q0⟩
  rw [hP] at h
  simp only [Prod.mk.injEq] at h
  obtain ⟨-, rfl, rfl, rfl⟩ := h
  exact processChunk_step s pb r0 _ _ _ hP

theorem runRead_succ (s : IPMVEContext) (pb : Reader) (n : Nat) :
    runRead s pb (n + 1) =
      ((ipmovieReadPacket s pb).2.2.2.toList ++
         (runRead (ipmovieReadPacket s pb).2.1 (ipmovieReadPacket s pb).2.2.1 n).1,
       (runRead (ipmovieReadPacket s pb).2.1 (ipmovieReadPacket s pb).2.2.1 n).2.1,
       (runRead (ipmovieReadPacket s pb).2.1 (ipmovieReadPacket s pb).2.2.1 n).2.2) := rfl

theorem stateAfter_succ (s : IPMVEContext) (pb : Reader) (i : Nat) :
    stateAfter s pb (i + 1) =
      stateAfter (ipmovieReadPacket s pb).2.1 (ipmovieReadPacket s pb).2.2.1 i := rfl

theorem runRead_video_pts (n : Nat) :
    ∀ (s : IPMVEContext) (pb : Reader) (inc : Nat),
      s.audio_stream_index ≠ s.video_stream_index →
      (∀ i, i ≤ n → (stateAfter s pb i).frame_pts_inc = inc) →
      ∀ k, k < ((runRead s pb n).1.filter
          (fun p => decide (p.stream_index = s.video_stream_index))).length →
        (((runRead s pb n).1.filter
          (fun p => decide (p.stream_index = s.video_stream_index))).getD k emptyPacket).pts
          = s.video_pts + (k : Int) * (inc : Int) := by
  induction n with
  | zero =>
    intro s pb inc _ _ k hk
    simp [runRead] at hk
  | succ n ih =>
    intro s pb inc hne hinc k hk
    rcases hR : ipmovieReadPacket s pb with ⟨r, s1, pb1, q⟩
    obtain ⟨e1, e2, e3⟩ := readPacket_step s pb r s1 pb1 q hR
    have hne1 : s1.audio_stream_index ≠ s1.video_stream_index := by
      rw [e1, e2]; exact hne
    have hinc1 : ∀ i, i ≤ n → (stateAfter s1 pb1 i).frame_pts_inc = inc := by
      intro i hi
      have h2 := hinc (i + 1) (Nat.succ_le_succ hi)
      rw [stateAfter_succ, hR] at h2
      exact h2
    have hs1inc : s1.frame_pts_inc = inc := by
      have h2 := hinc 1 (Nat.succ_le_succ (Nat.zero_le n))
      rw [stateAfter_succ, hR] at h2
      exact h2
    rw [runRead_succ, hR] at hk ⊢
    dsimp only at hk ⊢
    rcases e3 with ⟨hq, hvp⟩ | ⟨p, hq, hst, hvp⟩ | ⟨p, hq, hst, hpts, hvp⟩
    · subst hq
      simp only [Option.toList_none, List.nil_append] at hk ⊢
      have H := ih s1 pb1 inc hne1 hinc1 k
      simp only [e1] at H
      rw [hvp] at H
      exact H hk
    · subst hq
      have hpred : (decide (p.stream_index = s.video_stream_index)) = false := by
        rw [hst]
        exact decide_eq_false hne
      rw [Option.toList_some, List.filter_append, List.filter_cons, hpred] at hk ⊢
      simp only [Bool.false_eq_true, if_false, List.filter_nil, List.nil_append] at hk ⊢
      have H := ih s1 pb1 inc hne1 hinc1 k
      simp only [e1] at H
      rw [hvp] at H
      exact H hk
    · subst hq
      have hpred : (decide (p.stream_index = s.video_stream_index)) = true := by
        rw [hst]
        exact decide_eq_true rfl
      rw [Option.toList_some, List.filter_append, List.filter_cons, hpred] at hk ⊢
      simp only [if_true, List.filter_nil, List.nil_append, List.singleton_append] at hk ⊢
      rcases k with _ | k
      · rw [List.getD_cons_zero, hpts]
        simp
      · rw [List.getD_cons_succ]
        rw [List.length_cons] at hk
        have H := ih s1 pb1 inc hne1 hinc1 k
        simp only [e1] at H
        rw [hvp, hs1inc] at H
        have H2 := H (by omega)
        rw [H2]
        push_cast
        ring



theorem probeGo_max_iff (padded : List Nat) (len : Nat) :
    ∀ (fuel o : Nat), o ≤ len → len + 1 - o ≤ fuel →
      (probeGo padded len o fuel = AVPROBE_SCORE_MAX ↔
        ∃ k, o ≤ k ∧ (k = o ∨ k + 23 ≤ len) ∧ sigMatchAt padded k = true) := by
  intro fuel
  induction fuel with
  | zero => intro o ho hf; omega
  | succ fuel ih =>
    intro o ho hf
    rw [probeGo]
    by_cases hm : sigMatchAt padded o = true
    · rw [if_pos hm]
      constructor
      · intro _; exact ⟨o, Nat.le_refl o, Or.inl rfl, hm⟩
      · intro _; rfl
    · rw [if_neg hm]
      by_cases hc : (o : Int) + 1 < (len : Int) - 22
      · rw [if_pos hc]
        have h24 : o + 24 ≤ len := by omega
        rw [ih (o + 1) (by omega) (by omega)]
        constructor
        · rintro ⟨k, hk1, hk2, hk3⟩
          refine ⟨k, by omega, Or.inr ?_, hk3⟩
          rcases hk2 with h | h
          · omega
          · exact h
        · rintro ⟨k, hk1, hk2, hk3⟩
          have hko : k ≠ o := by
            intro hco
            rw [hco] at hk3
            exact hm hk3
          refine ⟨k, by omega, ?_, hk3⟩
          rcases hk2 with h | h
          · exact absurd h hko
          · rcases eq_or_ne k (o + 1) with h' | h'
            · exact Or.inl h'
            · exact Or.inr h
      · rw [if_neg hc]
        constructor
        · intro h0
          exact absurd h0 (by norm_num [AVPROBE_SCORE_MAX])
        · rintro ⟨k, hk1, hk2, hk3⟩
          exfalso
          have hko : k = o := by
            rcases hk2 with h | h
            · exact h
            · omega
          rw [hko] at hk3
          exact hm hk3




/-- C2 (amended): a video packet (tagged with video_stream_index, distinct
from audio_stream_index) is emitted by load_ipmovie_packet only when no audio
packet is pending and a set-decoding-map opcode has been recorded
(decode_map_chunk_offset is nonzero).  A video-data opcode is NOT required:
the code never checks video_chunk_offset before emitting, so a chunk carrying
a decoding map but no video data still produces a video packet (see the
counterexample). -/
theorem claim_C2_amended (s : IPMVEContext) (pb : Reader) (p : Packet)
    (hne : s.audio_stream_index ≠ s.video_stream_index)
    (hsome : (loadPacket s pb).2.2.2 = Option.some p)
    (hvid : p.stream_index = s.video_stream_index) :
    s.audio_chunk_offset = 0 ∧ s.decode_map_chunk_offset ≠ 0 := by
  by_cases ha : s.audio_chunk_offset = 0
  · by_cases hd : s.decode_map_chunk_offset = 0
    · rw [loadPacket_done s pb ha hd] at hsome
      exact absurd hsome (by simp)
    · exact ⟨ha, hd⟩
  · exfalso
    rw [loadPacket_audio s pb ha] at hsome
    by_cases hg : audioAdjSize s ≠
        (avGetPacket (avioSeekSet pb (audioAdjOffset s)) (audioAdjSize s)).1
    · rw [if_pos hg] at hsome
      exact absurd hsome (by simp)
    · rw [if_neg hg] at hsome
      simp only [Option.some.injEq] at hsome
      subst hsome
      exact hne hvid

theorem readPacket_eio_of_short_audio (s : IPMVEContext) (pb : Reader)
    (ha : s.audio_chunk_offset ≠ 0)
    (hg : (avGetPacket (avioSeekSet pb (audioAdjOffset s)) (audioAdjSize s)).1
        ≠ audioAdjSize s) :
    (ipmovieReadPacket s pb).1 = AVERROR_IOFAIL := by
  have hL : (loadPacket s pb).1 = CHUNK_EOF := by
    rw [loadPacket_audio s pb ha, if_pos (Ne.symm hg)]
  have hP : (processChunk s pb).1 = CHUNK_EOF := by
    unfold processChunk
    rw [if_pos (by rw [hL]; norm_num [CHUNK_EOF, CHUNK_DONE])]
    exact hL
  simp [ipmovieReadPacket, hP, CHUNK_EOF, CHUNK_BAD]

theorem readPacket_invaliddata_of_bad_chunk (s : IPMVEContext) (pb : Reader)
    (ha : s.audio_chunk_offset = 0) (hd : s.decode_map_chunk_offset = 0)
    (hfeof : pb.eofReached = false)
    (hcnt : (avioRead (avioSeekSet pb s.next_chunk_offset) 4).1 = 4)
    (hct : AV_RL16 (avioRead (avioSeekSet pb s.next_chunk_offset) 4).2.1 2 = 0xFF) :
    (ipmovieReadPacket s pb).1 = AVERROR_INVALIDDATA := by
  have hP : (processChunk s pb).1 = CHUNK_BAD := by
    unfold processChunk
    rw [loadPacket_done s pb ha hd]
    rw [if_neg (fun h => h rfl)]
    dsimp only
    unfold processChunkBody
    have hfe : urlFeof (avioSeekSet pb s.next_chunk_offset) = false := hfeof
    rw [hfe]
    rw [if_neg (by simp)]
    rw [if_neg (by rw [hcnt]; exact fun h => h rfl)]
    unfold chunkAfterPreamble
    rw [hct]
    norm_num
    rw [opcodeLoop_bad]
    unfold finishChunk
    rw [if_neg (by norm_num [CHUNK_BAD, CHUNK_VIDEO, CHUNK_AUDIO_ONLY])]
  simp [ipmovieReadPacket, hP, CHUNK_BAD]

/-- C10: draining a pending audio packet is not atomic on error.  When the
pending audio payload read comes up short, load_ipmovie_packet returns
CHUNK_EOF, but audio_chunk_offset has already been cleared to 0 (and, for the
PCM codecs, offset and size were already adjusted by 6 before the read), so a
subsequent call finds nothing pending (CHUNK_DONE) and never re-attempts the
audio packet. -/
theorem claim_C10 (s : IPMVEContext) (pb : Reader)
    (ha : s.audio_chunk_offset ≠ 0)
    (hd : s.decode_map_chunk_offset = 0)
    (hshort : (avGetPacket (avioSeekSet pb (audioAdjOffset s)) (audioAdjSize s)).1
        ≠ audioAdjSize s) :
    loadPacket s pb =
      (CHUNK_EOF, { s with audio_chunk_offset := 0, audio_chunk_size := audioAdjSize s },
       (avGetPacket (avioSeekSet pb (audioAdjOffset s)) (audioAdjSize s)).2.2, Option.none) ∧
    (∀ pb2 : Reader,
      loadPacket { s with audio_chunk_offset := 0, audio_chunk_size := audioAdjSize s } pb2 =
        (CHUNK_DONE, { s with audio_chunk_offset := 0, audio_chunk_size := audioAdjSize s },
         avioSeekSet pb2 s.next_chunk_offset, Option.none)) := by
  constructor
  · rw [loadPacket_audio s pb ha, if_pos (Ne.symm hshort)]
  · intro pb2
    exact loadPacket_done _ pb2 rfl hd

/-- C4: for every emitted audio packet, its pts equals audio_frame_count
before the emission, and afterwards audio_frame_count has advanced by
payload_size / channels / (bits/8) for the PCM codecs (payload_size being the
size after the 6-byte sub-header is stripped) and by
(original_opcode_size - 6) / channels for Interplay DPCM.  The arithmetic
side conditions keep the 32-bit unsigned counter from wrapping. -/
theorem claim_C4 (s : IPMVEContext) (pb : Reader)
    (ha : s.audio_chunk_offset ≠ 0)
    (hfull : (avGetPacket (avioSeekSet pb (audioAdjOffset s)) (audioAdjSize s)).1
        = audioAdjSize s)
    (hsz : s.audio_chunk_size < 2 ^ 32)
    (hdp : s.audio_type = AudioType.interplayDpcm → 6 ≤ s.audio_chunk_size)
    (hnw : s.audio_frame_count + claimedAudioAdvance s < 2 ^ 32) :
    ∃ p : Packet, (loadPacket s pb).2.2.2 = Option.some p ∧
      p.stream_index = s.audio_stream_index ∧
      p.pts = (s.audio_frame_count : Int) ∧
      (loadPacket s pb).2.1.audio_frame_count
        = s.audio_frame_count + claimedAudioAdvance s := by
  have hDelta : audioDelta s = claimedAudioAdvance s := by
    unfold audioDelta claimedAudioAdvance
    by_cases hdpc : s.audio_type ≠ AudioType.interplayDpcm
    · rw [if_pos hdpc, if_pos hdpc]
    · rw [if_neg hdpc, if_neg hdpc]
      push_neg at hdpc
      have h6 := hdp hdpc
      rw [Int.emod_eq_of_lt (by omega) (by omega)]
  rw [loadPacket_audio s pb ha, if_neg (by rw [hfull]; exact fun h => h rfl)]
  refine ⟨_, rfl, rfl, rfl, ?_⟩
  show (s.audio_frame_count + audioDelta s) % 2 ^ 32 = _
  rw [hDelta]
  exact Nat.mod_eq_of_lt hnw

/-- C1: for every open demuxer whose last parsed chunk recorded both a
pending audio opcode and pending video state (audio_chunk_offset and
decode_map_chunk_offset both nonzero) and whose pending payload reads
succeed, the next ipmovie_read_packet call emits exactly one audio packet
tagged with audio_stream_index, and the call after it emits exactly one
video packet tagged with video_stream_index; no video packet precedes the
pending audio packet. -/
theorem claim_C1 (s : IPMVEContext) (pb : Reader)
    (ha : s.audio_chunk_offset ≠ 0)
    (hd : s.decode_map_chunk_offset ≠ 0)
    (hafull : (avGetPacket (avioSeekSet pb (audioAdjOffset s)) (audioAdjSize s)).1
        = audioAdjSize s)
    (hdm0 : 0 ≤ s.decode_map_chunk_size) (hv0 : 0 ≤ s.video_chunk_size)
    (hdmfull : ((bytesAt pb.data s.decode_map_chunk_offset
        s.decode_map_chunk_size.toNat).length : Int) = s.decode_map_chunk_size)
    (hvfull : ((bytesAt pb.data s.video_chunk_offset
        s.video_chunk_size.toNat).length : Int) = s.video_chunk_size) :
    ∃ s1 pb1 p1, ipmovieReadPacket s pb = (0, s1, pb1, Option.some p1) ∧
      p1.stream_index = s.audio_stream_index ∧
      ∃ s2 pb2 p2, ipmovieReadPacket s1 pb1 = (0, s2, pb2, Option.some p2) ∧
        p2.stream_index = s.video_stream_index := by
  have hL1 := loadPacket_audio s pb ha
  rw [if_neg (by rw [hafull]; exact fun h => h rfl)] at hL1
  refine ⟨_, _, _, readPacket_of_processChunk_video s pb _ _ _
    (processChunk_of_loadPacket_video s pb _ _ _ hL1), rfl, ?_⟩
  set sA : IPMVEContext :=
    { s with audio_chunk_offset := 0, audio_chunk_size := audioAdjSize s,
             audio_frame_count := (s.audio_frame_count + audioDelta s) % 2 ^ 32 } with hsA
  set pbA : Reader :=
    (avGetPacket (avioSeekSet pb (audioAdjOffset s)) (audioAdjSize s)).2.2 with hpbA
  have hdataA : pbA.data = pb.data := avGetPacket_data _ _
  have hL2 := loadPacket_video sA pbA rfl hd
  rw [if_neg (by show ¬(s.decode_map_chunk_size + s.video_chunk_size < 0); omega)] at hL2
  rw [if_neg (by
    show ¬(((bytesAt pbA.data s.decode_map_chunk_offset
        s.decode_map_chunk_size.toNat).length : Int) ≠ s.decode_map_chunk_size)
    rw [hdataA, hdmfull]
    exact fun h => h rfl)] at hL2
  rw [if_neg (by
    show ¬(((bytesAt pbA.data s.video_chunk_offset
        s.video_chunk_size.toNat).length : Int) ≠ s.video_chunk_size)
    rw [hdataA, hvfull]
    exact fun h => h rfl)] at hL2
  exact ⟨_, _, _, readPacket_of_processChunk_video sA pbA _ _ _
    (processChunk_of_loadPacket_video sA pbA _ _ _ hL2), rfl⟩



/-- C7: after reading a 4-byte opcode preamble the parser subtracts
4 + opcode_size from the chunk's remaining byte budget, and if the budget
becomes negative the chunk terminates with CHUNK_BAD (invalid data) with the
reader still positioned right after the preamble: not a single byte of the
oversized opcode body is read. -/
theorem claim_C7 (fuel : Nat) (s : IPMVEContext) (pb : Reader) (chunkSize chunkType : Int)
    (hfuel : 0 < fuel) (hcs : 0 < chunkSize) (hct : chunkType ≠ CHUNK_BAD)
    (hfeof : pb.eofReached = false)
    (hcnt : (avioRead pb 4).1 = 4)
    (hneg : chunkSize - 4 - (AV_RL16 (avioRead pb 4).2.1 0 : Int) < 0) :
    opcodeLoop fuel s pb chunkSize chunkType = (s, (avioRead pb 4).2.2, CHUNK_BAD) ∧
    (avioRead pb 4).2.2.pos = pb.pos + 4 := by
  obtain ⟨fuel, rfl⟩ : ∃ f, fuel = f + 1 := ⟨fuel - 1, by omega⟩
  constructor
  · rw [opcodeLoop]
    rw [if_neg (fun hcon => hcon ⟨hcs, hct⟩)]
    have hf2 : urlFeof pb = false := hfeof
    rw [hf2]
    rw [if_neg (by simp)]
    rw [if_neg (by rw [hcnt]; exact fun h => h rfl)]
    rw [if_pos hneg]
  · have hpos : (avioRead pb 4).2.2.pos = pb.pos + (avioRead pb 4).1 := rfl
    rw [hpos, hcnt]

/-- C8: the header parse after the signature succeeds only when the first
chunk processes to init-video (0x0002), failing with invalid-data otherwise;
then the type field of the next chunk preamble is peeked (position restored):
if it is video (0x0003) the file is silent (audio_type becomes none and no
audio stream is created), otherwise that chunk is parsed and must process to
init-audio (0x0000) or the open fails with invalid-data.  (A short peek read
fails with the I/O error.) -/
theorem claim_C8 (s : IPMVEContext) (pb : Reader) (t1 : Int) (s2 : IPMVEContext)
    (pb3 : Reader) (q1 : Option Packet)
    (hR1 : processChunk (headerInitState s pb) pb = (t1, s2, pb3, q1)) :
    (t1 ≠ CHUNK_INIT_VIDEO → readHeaderAfterSig s pb = Except.error AVERROR_INVALIDDATA) ∧
    (t1 = CHUNK_INIT_VIDEO →
      ∀ (cnt : Int) (bytes : List Nat) (pb4 : Reader), avioRead pb3 4 = (cnt, bytes, pb4) →
        (cnt ≠ 4 → readHeaderAfterSig s pb = Except.error AVERROR_IOFAIL) ∧
        (cnt = 4 →
          ((AV_RL16 bytes 2 : Int) = CHUNK_VIDEO →
            ∃ sf pbf, readHeaderAfterSig s pb = Except.ok (sf, pbf, false) ∧
              sf.audio_type = AudioType.codecNone) ∧
          ((AV_RL16 bytes 2 : Int) ≠ CHUNK_VIDEO →
            (processChunk s2 (avioSkip pb4 (-4))).1 ≠ CHUNK_INIT_AUDIO →
            readHeaderAfterSig s pb = Except.error AVERROR_INVALIDDATA))) := by
  unfold readHeaderAfterSig
  rw [hR1]
  dsimp only
  constructor
  · intro hne
    rw [if_pos hne]
  · intro ht1
    rw [if_neg (not_not_intro ht1)]
    intro cnt bytes pb4 hRC
    unfold headerPeek
    rw [hRC]
    dsimp only
    constructor
    · intro hcnt
      rw [if_pos hcnt]
    · intro hcnt
      rw [if_neg (not_not_intro hcnt)]
      constructor
      · intro hty
        rw [if_pos hty]
        refine ⟨{ s2 with audio_type := AudioType.codecNone, video_stream_index := 0 },
          avioSkip pb4 (-4), ?_, rfl⟩
        unfold finishHeader
        rw [if_neg (fun h => h rfl)]
      · intro hty hia
        rw [if_neg hty, if_pos hia]

/-- C3: video_pts starts at 0 and advances by exactly frame_pts_inc per
emitted video packet and by nothing else: over any n ipmovie_read_packet
calls during which frame_pts_inc stays constant, the k-th emitted video
packet (the packets tagged with video_stream_index) carries
pts = k * frame_pts_inc. -/
theorem claim_C3 (s : IPMVEContext) (pb : Reader) (n : Nat)
    (h0 : s.video_pts = 0)
    (hne : s.audio_stream_index ≠ s.video_stream_index)
    (hinc : ∀ i, i ≤ n → (stateAfter s pb i).frame_pts_inc = s.frame_pts_inc) :
    ∀ k, k < ((runRead s pb n).1.filter
        (fun p => decide (p.stream_index = s.video_stream_index))).length →
      (((runRead s pb n).1.filter
        (fun p => decide (p.stream_index = s.video_stream_index))).getD k emptyPacket).pts
        = (k : Int) * (s.frame_pts_inc : Int) := by
  intro k hk
  have H := runRead_video_pts n s pb s.frame_pts_inc hne hinc k hk
  rw [h0] at H
  simpa using H

/-- C5 (amended): a short read while consuming a DEFERRED payload (a pending
audio opcode body read back by load_ipmovie_packet) maps to the I/O error
AVERROR(EIO), and a structural violation such as the unknown chunk type
0x00FF maps to AVERROR_INVALIDDATA; but a file that ends inside the body of
an inline-parsed opcode (create-timer, init-audio, init-video, set-palette)
or inside a preamble yields AVERROR_INVALIDDATA, not the I/O error (see the
counterexample). -/
theorem claim_C5_amended :
    (∀ (s : IPMVEContext) (pb : Reader),
      s.audio_chunk_offset ≠ 0 →
      (avGetPacket (avioSeekSet pb (audioAdjOffset s)) (audioAdjSize s)).1 ≠ audioAdjSize s →
      (ipmovieReadPacket s pb).1 = AVERROR_IOFAIL) ∧
    (∀ (s : IPMVEContext) (pb : Reader),
      s.audio_chunk_offset = 0 → s.decode_map_chunk_offset = 0 →
      pb.eofReached = false →
      (avioRead (avioSeekSet pb s.next_chunk_offset) 4).1 = 4 →
      AV_RL16 (avioRead (avioSeekSet pb s.next_chunk_offset) 4).2.1 2 = 0xFF →
      (ipmovieReadPacket s pb).1 = AVERROR_INVALIDDATA) :=
  ⟨readPacket_eio_of_short_audio, readPacket_invaliddata_of_bad_chunk⟩

/-- C6 (amended): ipmovie_probe returns AVPROBE_SCORE_MAX if and only if the
22-byte signature array (the 21 bytes plus its terminating NUL, since the C
code compares sizeof(signature) bytes) occurs in the zero-padded probe buffer
at offset 0 or at an offset k with k + 23 <= len (the do-while advances only
while b + 1 < buf + len - 22).  In particular a buffer whose LAST 21 bytes
are the signature does not probe (see the counterexample). -/
theorem claim_C6_amended (buf : List Nat) :
    ipmovieProbe buf = AVPROBE_SCORE_MAX ↔
      ∃ k, (k = 0 ∨ k + 23 ≤ buf.length) ∧
        sigMatchAt (buf ++ List.replicate 32 0) k = true := by
  unfold ipmovieProbe
  rw [probeGo_max_iff (buf ++ List.replicate 32 0) buf.length (buf.length + 1) 0
    (Nat.zero_le _) (by omega)]
  constructor
  · rintro ⟨k, _, hk2, hk3⟩
    exact ⟨k, hk2, hk3⟩
  · rintro ⟨k, hk2, hk3⟩
    exact ⟨k, Nat.zero_le k, hk2, hk3⟩



/-- C2 (counterexample): a video chunk whose only opcode is set-decoding-map
(0x0F) with no video-data opcode (0x11) anywhere still makes
ipmovie_read_packet emit a packet tagged with video_stream_index, refuting
the claim that such a chunk never produces a video packet. -/
theorem claim_C2_counterexample :
    c2Reader.data = [0x05, 0x00, 0x03, 0x00, 0x01, 0x00, 0x0F, 0x00, 0xAA] ∧
    (∀ i, i < 9 → c2Reader.data.getD i 0 ≠ 0x11) ∧
    (ipmovieReadPacket baseContext c2Reader).1 = 0 ∧
    (ipmovieReadPacket baseContext c2Reader).2.2.2 =
      Option.some { stream_index := baseContext.video_stream_index, pts := 0,
                    data := [0xAA], pos := 8, side_palette := Option.none } := by
  refine ⟨rfl, by decide, by decide, by decide⟩

/-- Witness for the amended C2 theorem at a concrete pending decoding map. -/
theorem claim_C2_witness :
    c2LoadCtx.audio_chunk_offset = 0 ∧ c2LoadCtx.decode_map_chunk_offset ≠ 0 :=
  claim_C2_amended c2LoadCtx c2LoadReader
    { stream_index := 7, pts := 0, data := [0xBB], pos := 8, side_palette := Option.none }
    (by decide) (by decide) (by decide)

/-- C5 (counterexample): a file ending in the middle of an opcode body (a
create-timer opcode declaring 6 body bytes with only 3 bytes left) makes
ipmovie_read_packet return AVERROR_INVALIDDATA, not the I/O error, refuting
the claim that a mid-body end of file never yields invalid-data. -/
theorem claim_C5_counterexample :
    c5Reader.data.length = 11 ∧ AV_RL16 c5Reader.data 4 = 6 ∧
    (ipmovieReadPacket baseContext c5Reader).1 = AVERROR_INVALIDDATA ∧
    AVERROR_INVALIDDATA ≠ AVERROR_IOFAIL := by decide

/-- Witness for the amended C5 theorem at concrete inputs for both parts. -/
theorem claim_C5_witness :
    (ipmovieReadPacket c10Ctx c10Reader).1 = AVERROR_IOFAIL ∧
    (ipmovieReadPacket baseContext c5BadTypeReader).1 = AVERROR_INVALIDDATA :=
  ⟨claim_C5_amended.1 c10Ctx c10Reader (by decide) (by decide),
   claim_C5_amended.2 baseContext c5BadTypeReader (by decide) (by decide) (by decide)
     (by decide) (by decide)⟩

/-- C6 (counterexample): a 43-byte buffer whose last 21 bytes are exactly the
21-byte signature does not reach the maximum probe score, refuting the claim
that the signature anywhere up to len - 21 suffices. -/
theorem claim_C6_counterexample :
    c6Buf.length = 43 ∧
    (c6Buf.drop 22).take 21 = signature21 ∧
    ipmovieProbe c6Buf ≠ AVPROBE_SCORE_MAX := by decide

/-- Witness for the amended C6 theorem: a buffer starting with the 22-byte
signature array reaches the maximum score. -/
theorem claim_C6_witness : ipmovieProbe c6GoodBuf = AVPROBE_SCORE_MAX :=
  (claim_C6_amended c6GoodBuf).mpr ⟨0, Or.inl rfl, by decide⟩

/-- C9: the claim demands that a pending non-DPCM audio opcode with size < 6
be rejected as invalid-data; the code instead strips the 6-byte sub-header
unconditionally, producing the negative payload size -2 for an opcode of
size 4, and ipmovie_read_packet then returns the I/O error AVERROR(EIO)
(after destroying the pending state), never invalid-data.  This theorem
evaluates the code at the failing input. -/
theorem claim_C9 :
    c9Ctx.audio_type ≠ AudioType.interplayDpcm ∧
    c9Ctx.audio_chunk_size = 4 ∧
    (ipmovieReadPacket c9Ctx c9Reader).1 = AVERROR_IOFAIL ∧
    AVERROR_IOFAIL ≠ AVERROR_INVALIDDATA ∧
    (ipmovieReadPacket c9Ctx c9Reader).2.1.audio_chunk_size = -2 := by decide

/-- Witness for C10 at a concrete short-read input. -/
theorem claim_C10_witness :
    loadPacket c10Ctx c10Reader =
      (CHUNK_EOF,
       { c10Ctx with audio_chunk_offset := 0, audio_chunk_size := audioAdjSize c10Ctx },
       (avGetPacket (avioSeekSet c10Reader (audioAdjOffset c10Ctx))
          (audioAdjSize c10Ctx)).2.2, Option.none) ∧
    (∀ pb2 : Reader,
      loadPacket
        { c10Ctx with audio_chunk_offset := 0, audio_chunk_size := audioAdjSize c10Ctx }
        pb2 =
        (CHUNK_DONE,
         { c10Ctx with audio_chunk_offset := 0, audio_chunk_size := audioAdjSize c10Ctx },
         avioSeekSet pb2 c10Ctx.next_chunk_offset, Option.none)) :=
  claim_C10 c10Ctx c10Reader (by decide) (by decide) (by decide)

/-- Witness for C4 at a concrete pending PCM audio opcode. -/
theorem claim_C4_witness :
    ∃ p : Packet, (loadPacket c1Ctx c1Reader).2.2.2 = Option.some p ∧
      p.stream_index = c1Ctx.audio_stream_index ∧
      p.pts = (c1Ctx.audio_frame_count : Int) ∧
      (loadPacket c1Ctx c1Reader).2.1.audio_frame_count
        = c1Ctx.audio_frame_count + claimedAudioAdvance c1Ctx :=
  claim_C4 c1Ctx c1Reader (by decide) (by decide) (by decide) (by decide) (by decide)

/-- Witness for C1 at concrete pending audio and video state. -/
theorem claim_C1_witness :
    ∃ s1 pb1 p1, ipmovieReadPacket c1Ctx c1Reader = (0, s1, pb1, Option.some p1) ∧
      p1.stream_index = c1Ctx.audio_stream_index ∧
      ∃ s2 pb2 p2, ipmovieReadPacket s1 pb1 = (0, s2, pb2, Option.some p2) ∧
        p2.stream_index = c1Ctx.video_stream_index :=
  claim_C1 c1Ctx c1Reader (by decide) (by decide) (by decide) (by decide) (by decide)
    (by decide) (by decide)

/-- Witness for C7 at a concrete oversized opcode preamble. -/
theorem claim_C7_witness :
    opcodeLoop 3 baseContext c7Reader 5 CHUNK_VIDEO =
      (baseContext, (avioRead c7Reader 4).2.2, CHUNK_BAD) ∧
    (avioRead c7Reader 4).2.2.pos = c7Reader.pos + 4 :=
  claim_C7 3 baseContext c7Reader 5 CHUNK_VIDEO (by decide) (by decide) (by decide)
    (by decide) (by decide) (by decide)

/-- Witness for C8 on a concrete silent file. -/
theorem claim_C8_witness :
    ∃ sf pbf, readHeaderAfterSig baseContext c8Reader = Except.ok (sf, pbf, false) ∧
      sf.audio_type = AudioType.codecNone :=
  (((claim_C8 baseContext c8Reader CHUNK_INIT_VIDEO c8S2 c8Pb3 Option.none rfl).2
    rfl 4 [0, 0, 3, 0] c8Pb4 rfl).2 rfl).1 (by decide)

/-- Witness for C3 on a one-call run emitting one video packet. -/
theorem claim_C3_witness :
    0 < ((runRead c3Ctx c3Reader 1).1.filter
        (fun p => decide (p.stream_index = c3Ctx.video_stream_index))).length ∧
    (((runRead c3Ctx c3Reader 1).1.filter
        (fun p => decide (p.stream_index = c3Ctx.video_stream_index))).getD 0
          emptyPacket).pts = ((0 : Nat) : Int) * (c3Ctx.frame_pts_inc : Int) :=
  ⟨by decide,
   claim_C3 c3Ctx c3Reader 1 (by decide) (by decide) (by decide) 0 (by decide)⟩


end IpMovie
